import Mathlib

/-!
Verification of the multi-source diagnostic inference engine of the
Hospital-Management-System repository (python-ai-project).

The Python sources are shallowly embedded as executable Lean definitions:

* `DrugInteractionAPI` embeds `src/ai/drug_interaction_api.py`
  (the pairwise drug-interaction resolver and its tiered fallback);
* `EnhancedDiagnosisAI` embeds the retry/cache layer of
  `src/ai/enhanced_diagnosis.py`;
* `AdvancedMedicalAI` embeds the inference and training entry points of
  `advanced_medical_ai.py`.

Modelling conventions: Python floats are modelled as rationals (`mkRat`);
wall-clock timestamps as `Int`; Python dicts as association lists (fixed
tables) or as functions to `Option` (mutable caches); network calls are
abstracted behind oracle records whose fields stand for the raw responses,
while every computation the Python code performs on those responses is
embedded; `None` results become `Option.none`.  The helpers below replicate
Python's `str.lower` / `str.strip` / `in` / `sorted` on the ASCII data the
program manipulates, using only kernel-reducible recursion.
-/

/-- ASCII lower-casing of a single character, as Python `str.lower` acts on
the ASCII strings appearing in the program. -/
def asciiLowerChar (c : Char) : Char :=
  if 'A' ≤ c && c ≤ 'Z' then Char.ofNat (c.toNat + 32) else c

/-- Python `s.lower()` on ASCII strings. -/
def lowerStr (s : String) : String := ⟨s.data.map asciiLowerChar⟩

/-- Drop leading and trailing whitespace from a character list. -/
def trimChars (l : List Char) : List Char :=
  ((l.dropWhile Char.isWhitespace).reverse.dropWhile Char.isWhitespace).reverse

/-- Python `s.strip()`. -/
def trimStr (s : String) : String := ⟨trimChars s.data⟩

/-- Helper for substring search: does `needle` occur in the character list? -/
def subAux (needle : List Char) : List Char → Bool
  | [] => needle.isEmpty
  | c :: t => needle.isPrefixOf (c :: t) || subAux needle t

/-- Python `pat in s` (substring containment). -/
def containsSub (s pat : String) : Bool := subAux pat.data s.data

/-- Lexicographic order on character lists by code point, as Python compares
strings. -/
def charListLe : List Char → List Char → Bool
  | [], _ => true
  | _ :: _, [] => false
  | a :: as, b :: bs => if a < b then true else if a = b then charListLe as bs else false

/-- Python `a <= b` on strings (code-point lexicographic). -/
def strLe (a b : String) : Bool := charListLe a.data b.data

namespace DrugInteractionAPI

/-- An interaction record as built by `DrugInteractionAPI`: the dict with keys
`drug1`, `drug2`, `severity`, `description`, `source`, `recommendation`, and
(for static-table hits only) `mechanism` and `evidence_level`. -/
structure Interaction where
  drug1 : String
  drug2 : String
  severity : String
  description : String
  source : String
  recommendation : String
  mechanism : Option String
  evidence_level : Option String
deriving DecidableEq

/-- A row of the static `known_interactions` table (everything but the drug
pair key). -/
structure KnownRule where
  severity : String
  description : String
  mechanism : String
  recommendation : String
  evidence_level : String
deriving DecidableEq

/-- The static `known_interactions` dict of `DrugInteractionAPI.__init__`,
in insertion order. -/
def known_interactions : List ((String × String) × KnownRule) :=
  [ (("warfarin", "aspirin"),
     { severity := "severe", description := "Increased bleeding risk",
       mechanism := "Both drugs affect platelet function",
       recommendation := "Monitor INR closely, consider alternative",
       evidence_level := "strong" }),
    (("metformin", "insulin"),
     { severity := "moderate", description := "Increased hypoglycemia risk",
       mechanism := "Additive glucose-lowering effects",
       recommendation := "Monitor blood glucose frequently",
       evidence_level := "moderate" }),
    (("lisinopril", "spironolactone"),
     { severity := "moderate", description := "Increased hyperkalemia risk",
       mechanism := "Both increase potassium levels",
       recommendation := "Monitor potassium levels",
       evidence_level := "strong" }),
    (("simvastatin", "amiodarone"),
     { severity := "severe", description := "Increased myopathy risk",
       mechanism := "CYP3A4 inhibition",
       recommendation := "Avoid combination or reduce simvastatin dose",
       evidence_level := "strong" }),
    (("digoxin", "amiodarone"),
     { severity := "moderate", description := "Increased digoxin levels",
       mechanism := "P-glycoprotein inhibition",
       recommendation := "Monitor digoxin levels, reduce dose",
       evidence_level := "moderate" }),
    (("phenytoin", "warfarin"),
     { severity := "moderate", description := "Decreased warfarin effect",
       mechanism := "CYP2C9 induction",
       recommendation := "Monitor INR, adjust warfarin dose",
       evidence_level := "moderate" }),
    (("ciprofloxacin", "warfarin"),
     { severity := "moderate", description := "Increased warfarin effect",
       mechanism := "CYP2C9 inhibition",
       recommendation := "Monitor INR closely",
       evidence_level := "moderate" }),
    (("amiodarone", "warfarin"),
     { severity := "severe", description := "Increased warfarin effect",
       mechanism := "CYP2C9 inhibition",
       recommendation := "Reduce warfarin dose by 30-50%",
       evidence_level := "strong" }),
    (("metronidazole", "warfarin"),
     { severity := "moderate", description := "Increased warfarin effect",
       mechanism := "CYP2C9 inhibition",
       recommendation := "Monitor INR closely",
       evidence_level := "moderate" }),
    (("fluconazole", "warfarin"),
     { severity := "moderate", description := "Increased warfarin effect",
       mechanism := "CYP2C9 inhibition",
       recommendation := "Monitor INR closely",
       evidence_level := "moderate" }) ]

/-- `DrugInteractionAPI._check_known_interaction`: scan the static table for
the pair in either order (case-insensitively) and, on a hit, return the rule
merged with `drug1`, `drug2` and `source = "Known Database"`. -/
def check_known_interaction (drug1 drug2 : String) : Option Interaction :=
  (known_interactions.find? (fun e =>
      (lowerStr drug1 == lowerStr e.1.1 && lowerStr drug2 == lowerStr e.1.2) ||
      (lowerStr drug1 == lowerStr e.1.2 && lowerStr drug2 == lowerStr e.1.1))).map
    (fun e =>
      { drug1 := drug1, drug2 := drug2, severity := e.2.severity,
        description := e.2.description, source := "Known Database",
        recommendation := e.2.recommendation, mechanism := some e.2.mechanism,
        evidence_level := some e.2.evidence_level })

/-- Abstraction of the network services consulted by `DrugInteractionAPI`:
`normalize` stands for `_normalize_drug_name` (RxNorm, returning the input
unchanged on failure), `fdaInteractionText` for the FDA label text naming the
second drug (`None` when the response has no such mention or the call fails),
and `openfdaHasEvents` for whether the OpenFDA adverse-event query returned
results. -/
structure ExternalOracle where
  normalize : String → String
  fdaInteractionText : String → String → Option String
  openfdaHasEvents : String → String → Bool

/-- The oracle describing runs in which every external call fails or returns
nothing, so each helper falls back to its static behaviour. -/
def offlineOracle : ExternalOracle :=
  { normalize := fun d => d,
    fdaInteractionText := fun _ _ => none,
    openfdaHasEvents := fun _ _ => false }

/-- `DrugInteractionAPI._check_fda_interaction`: when the FDA label of
`drug1` mentions `drug2`, build a moderate-severity interaction dict. -/
def check_fda_interaction (ext : ExternalOracle) (drug1 drug2 : String) :
    Option Interaction :=
  (ext.fdaInteractionText drug1 drug2).map (fun txt =>
    { drug1 := drug1, drug2 := drug2, severity := "moderate", description := txt,
      source := "FDA", recommendation := "Consult healthcare provider",
      mechanism := none, evidence_level := none })

/-- `DrugInteractionAPI._check_openfda_interaction`: when the OpenFDA
adverse-event search for the pair has results, build a moderate-severity
interaction dict. -/
def check_openfda_interaction (ext : ExternalOracle) (drug1 drug2 : String) :
    Option Interaction :=
  if ext.openfdaHasEvents drug1 drug2 then
    some { drug1 := drug1, drug2 := drug2, severity := "moderate",
           description := "Adverse events reported with " ++ drug1 ++ " and " ++ drug2,
           source := "OpenFDA", recommendation := "Monitor for adverse effects",
           mechanism := none, evidence_level := none }
  else none

/-- The `_interaction_cache` dict: sorted drug pair to (interaction, store
time). -/
def ICache : Type := (String × String) → Option (Interaction × Int)

/-- The empty interaction cache a fresh `DrugInteractionAPI` starts with. -/
def emptyICache : ICache := fun _ => none

/-- `self._cache_ttl` of `DrugInteractionAPI` (3600 seconds). -/
def cache_ttl : Int := 3600

/-- Python `tuple(sorted([a, b]))` on two strings. -/
def sortedKey (a b : String) : String × String :=
  if strLe a b then (a, b) else (b, a)

/-- Store an interaction in the cache under `key` with timestamp `now`. -/
def cacheStore (cache : ICache) (key : String × String) (i : Interaction)
    (now : Int) : ICache :=
  fun k => if k = key then some (i, now) else cache k

/-- `DrugInteractionAPI.check_drug_interaction`: normalize both names, return
a fresh cache hit if present, otherwise try the FDA lookup, then the OpenFDA
lookup, then the static known-interaction table, caching and returning the
first hit; return `none` when every source is silent. -/
def check_drug_interaction (ext : ExternalOracle) (now : Int) (cache : ICache)
    (drug1 drug2 : String) : Option Interaction × ICache :=
  let norm1 := ext.normalize drug1
  let norm2 := ext.normalize drug2
  let key := sortedKey norm1 norm2
  let fresh : Option Interaction :=
    match cache key with
    | some (i, ts) => if now - ts < cache_ttl then some i else none
    | none => none
  match fresh with
  | some i => (some i, cache)
  | none =>
    match check_fda_interaction ext norm1 norm2 with
    | some i => (some i, cacheStore cache key i now)
    | none =>
      match check_openfda_interaction ext norm1 norm2 with
      | some i => (some i, cacheStore cache key i now)
      | none =>
        match check_known_interaction norm1 norm2 with
        | some i => (some i, cacheStore cache key i now)
        | none => (none, cache)

/-- The pairwise enumeration of `analyze_medication_list`:
`for i, med1 in enumerate(medications): for med2 in medications[i+1:]`. -/
def pairsOf : List String → List (String × String)
  | [] => []
  | m :: rest => rest.map (fun m2 => (m, m2)) ++ pairsOf rest

/-- The warning strings added for one detected interaction. -/
def warningFor (med1 med2 : String) (i : Interaction) : List String :=
  if i.severity = "severe" then
    ["SEVERE: " ++ med1 ++ " + " ++ med2 ++ " - " ++ i.description]
  else if i.severity = "moderate" then
    ["MODERATE: " ++ med1 ++ " + " ++ med2 ++ " - " ++ i.description]
  else []

/-- The recommendation strings added for one detected interaction. -/
def recommendationFor (med1 med2 : String) (i : Interaction) : List String :=
  if i.recommendation = "" then []
  else [med1 ++ " + " ++ med2 ++ ": " ++ i.recommendation]

/-- Accumulated state of the pairwise loop of `analyze_medication_list`. -/
structure LoopOut where
  interactions : List Interaction
  warnings : List String
  recommendations : List String
  cache : ICache

/-- The pairwise loop body of `analyze_medication_list`, threading the
interaction cache left to right and collecting interactions, warnings and
recommendations in pair order. -/
def analyzeLoop (ext : ExternalOracle) (now : Int) :
    List (String × String) → ICache → LoopOut
  | [], cache =>
    { interactions := [], warnings := [], recommendations := [], cache := cache }
  | (m1, m2) :: rest, cache =>
    let step := check_drug_interaction ext now cache m1 m2
    let out := analyzeLoop ext now rest step.2
    match step.1 with
    | none => out
    | some i =>
      { interactions := i :: out.interactions,
        warnings := warningFor m1 m2 i ++ out.warnings,
        recommendations := recommendationFor m1 m2 i ++ out.recommendations,
        cache := out.cache }

/-- The overall risk computation of `analyze_medication_list`:
`"high" if any severe else "moderate" if any moderate else "low"`. -/
def riskLevel (interactions : List Interaction) : String :=
  if interactions.any (fun i => i.severity == "severe") then "high"
  else if interactions.any (fun i => i.severity == "moderate") then "moderate"
  else "low"

/-- The report dict returned by `analyze_medication_list` (the
`analysis_date` field, a wall-clock string, is omitted). -/
structure InteractionReport where
  medications : List String
  interactions : List Interaction
  warnings : List String
  recommendations : List String
  risk_level : String
  total_interactions : Nat

/-- `DrugInteractionAPI.analyze_medication_list`: check every unordered pair
of the medication list and aggregate interactions, warnings, recommendations
and the overall risk level. -/
def analyze_medication_list (ext : ExternalOracle) (now : Int) (cache : ICache)
    (medications : List String) : InteractionReport × ICache :=
  let out := analyzeLoop ext now (pairsOf medications) cache
  ({ medications := medications, interactions := out.interactions,
     warnings := out.warnings, recommendations := out.recommendations,
     risk_level := riskLevel out.interactions,
     total_interactions := out.interactions.length }, out.cache)

/-- A severe interaction between warfarin and aspirin, in either field
order. -/
def waInteraction (i : Interaction) : Prop :=
  i.severity = "severe" ∧
  ((i.drug1 = "warfarin" ∧ i.drug2 = "aspirin") ∨
   (i.drug1 = "aspirin" ∧ i.drug2 = "warfarin"))

instance (i : Interaction) : Decidable (waInteraction i) := by
  unfold waInteraction
  infer_instance

/-- Invariant on the interaction cache: anything stored under the sorted
warfarin/aspirin key is a severe warfarin/aspirin interaction. -/
def waCacheOk (c : ICache) : Prop :=
  ∀ i ts, c ("aspirin", "warfarin") = some (i, ts) → waInteraction i

/-- The tail of `check_drug_interaction` once the cache and both external
sources are silent: consult the static table and cache any hit. -/
def knownFallbackStep (now : Int) (c : ICache) (d1 d2 : String) :
    Option Interaction × ICache :=
  match check_known_interaction d1 d2 with
  | some i => (some i, cacheStore c (sortedKey d1 d2) i now)
  | none => (none, c)

/-- An oracle whose FDA lookup reports an interaction text for every pair
(standing for a run in which the FDA label query succeeds), with OpenFDA
silent. -/
def fdaTestOracle : ExternalOracle :=
  { normalize := fun d => d,
    fdaInteractionText := fun _ _ => some "May increase bleeding risk",
    openfdaHasEvents := fun _ _ => false }

/-- A concrete interaction record as the static table produces it for
warfarin/aspirin, used as a cache payload in concrete scenarios. -/
def cachedWarfarinAspirin : Interaction :=
  { drug1 := "warfarin", drug2 := "aspirin", severity := "severe",
    description := "Increased bleeding risk", source := "Known Database",
    recommendation := "Monitor INR closely, consider alternative",
    mechanism := some "Both drugs affect platelet function",
    evidence_level := some "strong" }

end DrugInteractionAPI

namespace EnhancedDiagnosisAI

/-- Outcome of a single HTTP attempt inside
`EnhancedDiagnosisAI._fetch_with_retries`: either a response with a status
code (carrying its payload) or a connection error / timeout. -/
inductive AttemptResult where
  | status (code : Nat) (payload : String)
  | connError
deriving DecidableEq

/-- An attempt outcome that makes `_fetch_with_retries` retry: HTTP 429, a
5xx status, or a connection error / timeout. -/
def retriable : AttemptResult → Bool
  | .connError => true
  | .status code _ => code == 429 || decide (500 ≤ code)

/-- The `while retries < max_retries` loop of `_fetch_with_retries`;
`attempt n` is the outcome of the attempt made with `retries = n`, and the
fuel argument is `max_retries - retries`.  Status 429 and 5xx responses and
connection errors retry (after a backoff sleep, which has no observable
effect here); status 200 returns the payload; any other status returns
`None` at once, and exhausting the retries returns `None`. -/
def fetch_with_retries_go (attempt : Nat → AttemptResult) :
    Nat → Nat → Option String
  | _, 0 => none
  | retries, fuel + 1 =>
    match attempt retries with
    | .connError => fetch_with_retries_go attempt (retries + 1) fuel
    | .status code payload =>
      if code == 429 then fetch_with_retries_go attempt (retries + 1) fuel
      else if 500 ≤ code then fetch_with_retries_go attempt (retries + 1) fuel
      else if code == 200 then some payload
      else none

/-- `EnhancedDiagnosisAI._fetch_with_retries` (with `max_retries` attempts
available; the source default is 3). -/
def fetch_with_retries (attempt : Nat → AttemptResult) (max_retries : Nat) :
    Option String :=
  fetch_with_retries_go attempt 0 max_retries

/-- The `_external_cache` dict: key to (payload, fetch timestamp). -/
def ExtCache : Type := String → Option (String × Int)

/-- `self._cache_ttl` of `EnhancedDiagnosisAI` (3600 seconds). -/
def cache_ttl : Int := 3600

/-- `EnhancedDiagnosisAI._get_cached`: return the payload while the entry is
younger than the TTL; an entry at or past the TTL is deleted from the cache
and `None` is returned.  The result pairs the returned value with the cache
as it stands after the read. -/
def get_cached (cache : ExtCache) (now : Int) (key : String) :
    Option String × ExtCache :=
  match cache key with
  | some (data, ts) =>
    if now - ts < cache_ttl then (some data, cache)
    else (none, fun k => if k = key then none else cache k)
  | none => (none, cache)

/-- `EnhancedDiagnosisAI._set_cache`. -/
def set_cache (cache : ExtCache) (key : String) (data : String) (now : Int) :
    ExtCache :=
  fun k => if k = key then some (data, now) else cache k

end EnhancedDiagnosisAI

namespace AdvancedMedicalAI

/-- The `canonical_diseases` whitelist of `AdvancedMedicalAI.__init__`, in
source order. -/
def canonical_diseases : List String :=
  [ "Common Cold", "Influenza", "Gastroenteritis", "Urinary Tract Infection",
    "Arthritis", "Osteoarthritis", "Rheumatoid Arthritis", "Asthma",
    "Migraine", "Anemia", "Hepatitis B", "Peptic Ulcer Disease",
    "Otitis Media", "Dermatitis", "Diabetes Mellitus", "Hypertension",
    "Malaria", "Pneumonia", "Tuberculosis", "HIV/AIDS", "Typhoid Fever",
    "Amoebiasis" ]

/-- The `display_aliases` dict of `AdvancedMedicalAI.__init__`, in insertion
order. -/
def display_aliases : List (String × String) :=
  [ ("diabetes", "Diabetes Mellitus"), ("diabetes mellitus", "Diabetes Mellitus"),
    ("hypertension", "Hypertension"), ("malaria", "Malaria"),
    ("pneumonia", "Pneumonia"), ("tuberculosis", "Tuberculosis"),
    ("hiv", "HIV/AIDS"), ("hiv/aids", "HIV/AIDS"), ("asthma", "Asthma"),
    ("migraine", "Migraine"), ("anemia", "Anemia"), ("anaemia", "Anemia"),
    ("hepatitis b", "Hepatitis B"), ("peptic ulcer", "Peptic Ulcer Disease"),
    ("ulcer", "Peptic Ulcer Disease"), ("otitis", "Otitis Media"),
    ("dermatitis", "Dermatitis"), ("arthritis", "Arthritis"),
    ("rheumatoid arthritis", "Rheumatoid Arthritis"),
    ("osteoarthritis", "Osteoarthritis"), ("uti", "Urinary Tract Infection"),
    ("urinary tract", "Urinary Tract Infection"),
    ("gastroenteritis", "Gastroenteritis"), ("common cold", "Common Cold"),
    ("cold", "Common Cold"), ("influenza", "Influenza"), ("flu", "Influenza"),
    ("typhoid", "Typhoid Fever"), ("amoebiasis", "Amoebiasis"),
    ("amoebic", "Amoebiasis") ]

/-- `AdvancedMedicalAI.normalize_to_canonical`: empty labels map to `None`;
otherwise the lower-cased, stripped label is matched exactly against the
lower-cased canonical names, and failing that the first alias key (in
insertion order) contained in it decides; `None` when nothing matches. -/
def normalize_to_canonical (raw_label : String) : Option String :=
  if raw_label = "" then none
  else
    let low := trimStr (lowerStr raw_label)
    match canonical_diseases.find? (fun canon => low == lowerStr canon) with
    | some canon => some canon
    | none =>
      (display_aliases.find? (fun kv => containsSub low kv.1)).map (fun kv => kv.2)

/-- One entry of `diseases_database`: a dict whose keys may each be absent
(`None` models a missing key, so `dict.get` defaults apply). -/
structure DiseaseData where
  symptoms : Option (List String)
  treatments : Option (List String)
  lab_tests : Option (List String)
  drug_interactions : Option (List String)
  severity : Option String
deriving DecidableEq

/-- `self.diseases_database.get(name, {})` on the association-list model of
the dict. -/
def dbGet (db : List (String × DiseaseData)) (name : String) :
    Option DiseaseData :=
  (db.find? (fun e => e.1 == name)).map (fun e => e.2)

/-- One prediction entry of the `analyze_symptoms` result. -/
structure Prediction where
  disease : String
  confidence : ℚ
  symptoms : List String
  treatments : List String
  lab_tests : List String
  drug_interactions : List String
  severity : String
deriving DecidableEq

/-- A training example appended to `self.training_data`. -/
structure TrainingItem where
  symptoms : String
  disease : String
  confidence : ℚ
deriving DecidableEq

/-- The loaded classifier: its label set (`classes_`) and
`predict_proba` on a feature vector. -/
structure Classifier where
  classes : List String
  predictProba : List ℚ → List ℚ

/-- The mutable fields of `AdvancedMedicalAI` that the claims concern.  The
vectorizer is its `transform` on one input text. -/
structure AIState where
  vectorizer : Option (String → List ℚ)
  classifier : Option Classifier
  diseases_database : List (String × DiseaseData)
  accuracy : ℚ
  training_data : List TrainingItem
  training_status : String

/-- The respiratory keyword list of the `analyze_symptoms` fast path. -/
def respiratory_keywords : List String :=
  ["cough", "runny nose", "sneezing", "sore throat", "congestion", "cold"]

/-- The fever keyword list of the `analyze_symptoms` fast path. -/
def fever_keywords : List String := ["fever", "chills"]

/-- `respiratory_flags` of `analyze_symptoms` on the lower-cased input. -/
def respFlag (s : String) : Bool :=
  respiratory_keywords.any (fun k => containsSub s k)

/-- `feverish` of `analyze_symptoms` on the lower-cased input. -/
def feverFlag (s : String) : Bool :=
  fever_keywords.any (fun k => containsSub s k)

/-- A fast-path prediction entry: database fields when present, the
hard-coded respiratory defaults otherwise; confidence 0.7 for Common Cold
and 0.6 for Influenza. -/
def heurPrediction (db : List (String × DiseaseData)) (name : String) :
    Prediction :=
  let dd := dbGet db name
  { disease := name,
    confidence := if name = "Common Cold" then mkRat 7 10 else mkRat 6 10,
    symptoms := (dd.bind (fun d => d.symptoms)).getD
      ["cough", "runny nose", "sore throat", "sneezing"],
    treatments := (dd.bind (fun d => d.treatments)).getD
      ["rest", "fluids", "paracetamol", "decongestants"],
    lab_tests := (dd.bind (fun d => d.lab_tests)).getD [],
    drug_interactions := (dd.bind (fun d => d.drug_interactions)).getD [],
    severity := (dd.bind (fun d => d.severity)).getD "moderate" }

/-- A classifier-path prediction entry: the canonical name with the class
probability as confidence, and evidence fields looked up first under the
canonical name, then under the raw label. -/
def classifierPrediction (db : List (String × DiseaseData)) (canonical : String)
    (raw : String) (confidence : ℚ) : Prediction :=
  let dd := (dbGet db canonical).orElse (fun _ => dbGet db raw)
  { disease := canonical, confidence := confidence,
    symptoms := (dd.bind (fun d => d.symptoms)).getD [],
    treatments := (dd.bind (fun d => d.treatments)).getD [],
    lab_tests := (dd.bind (fun d => d.lab_tests)).getD [],
    drug_interactions := (dd.bind (fun d => d.drug_interactions)).getD [],
    severity := (dd.bind (fun d => d.severity)).getD "moderate" }

/-- `probabilities.argsort()[-3:][::-1]` without the truncation: the indices
of `ps` sorted by descending probability. -/
def argsortDesc (ps : List ℚ) : List Nat :=
  List.insertionSort (fun i j => ps.getD j 0 ≤ ps.getD i 0) (List.range ps.length)

/-- The classifier candidate construction of `analyze_symptoms`: walk the top
three indices by probability, keep those with probability above 0.1 whose
raw label canonicalizes, and build their prediction entries. -/
def classifierCandidates (db : List (String × DiseaseData))
    (classes : List String) (probabilities : List ℚ) : List Prediction :=
  ((argsortDesc probabilities).take 3).filterMap (fun idx =>
    if mkRat 1 10 < probabilities.getD idx 0 then
      match normalize_to_canonical (classes.getD idx "") with
      | some canonical =>
        some (classifierPrediction db canonical (classes.getD idx "")
          (probabilities.getD idx 0))
      | none => none
    else none)

/-- The `simple_map` keyword-to-condition fallback rules of
`analyze_symptoms`, in source order. -/
def simple_map : List (List String × String) :=
  [ (["thirst", "urination", "sugar", "glucose"], "Diabetes Mellitus"),
    (["blood pressure", "hypertension", "headache"], "Hypertension"),
    (["fever", "chills", "sweat", "mosquito"], "Malaria"),
    (["cough", "fever", "chest pain", "breath"], "Pneumonia"),
    (["burning urination", "urinary", "cloudy urine"], "Urinary Tract Infection"),
    (["vomiting", "diarrhea", "diarrhoea", "abdominal pain", "stomach pain", "nausea"],
     "Gastroenteritis") ]

/-- The first fallback rule (in order) with a keyword contained in the
lower-cased input, if any. -/
def keywordFallbackChoice (s : String) : Option String :=
  (simple_map.find? (fun r => r.1.any (fun k => containsSub s k))).map
    (fun r => r.2)

/-- The single fallback prediction entry built when a `simple_map` rule
fires (fixed confidence 0.6). -/
def fallbackPrediction (db : List (String × DiseaseData)) (name : String) :
    Prediction :=
  let dd := dbGet db name
  { disease := name, confidence := mkRat 6 10,
    symptoms := (dd.bind (fun d => d.symptoms)).getD [],
    treatments := (dd.bind (fun d => d.treatments)).getD [],
    lab_tests := (dd.bind (fun d => d.lab_tests)).getD [],
    drug_interactions := (dd.bind (fun d => d.drug_interactions)).getD [],
    severity := (dd.bind (fun d => d.severity)).getD "moderate" }

/-- The successful `analyze_symptoms` result dict (the `analysis_time`
wall-clock field is omitted). -/
structure AnalysisReport where
  predictions : List Prediction
  input_symptoms : String
  model_accuracy : ℚ
  diseases_learned : Nat

/-- Result of `analyze_symptoms`: either the `{"error": msg}` dict or a
report. -/
inductive AnalyzeResult where
  | error (msg : String)
  | report (r : AnalysisReport)

/-- `AdvancedMedicalAI.analyze_symptoms`: with no classifier or no
vectorizer, the explicit `{"error": "Model not trained"}` result; otherwise
the respiratory fast path when its keywords match, else the top-three
classifier candidates filtered by threshold and canonicalization, with the
`simple_map` keyword fallback when every candidate is dropped. -/
def analyze_symptoms (ai : AIState) (symptoms : String) : AnalyzeResult :=
  match ai.classifier, ai.vectorizer with
  | some clf, some vec =>
    let x := vec symptoms
    let probabilities := clf.predictProba x
    let s := lowerStr symptoms
    if respFlag s then
      let likely := if feverFlag s then ["Common Cold", "Influenza"]
                    else ["Common Cold"]
      .report { predictions := likely.map (heurPrediction ai.diseases_database),
                input_symptoms := symptoms, model_accuracy := ai.accuracy,
                diseases_learned := ai.diseases_database.length }
    else
      let results := classifierCandidates ai.diseases_database clf.classes
        probabilities
      let results2 :=
        if results.isEmpty then
          match keywordFallbackChoice s with
          | some chosen => [fallbackPrediction ai.diseases_database chosen]
          | none => []
        else results
      .report { predictions := results2, input_symptoms := symptoms,
                model_accuracy := ai.accuracy,
                diseases_learned := ai.diseases_database.length }
  | _, _ => .error "Model not trained"

/-- The disease-name keywords that trigger extra single-symptom examples in
`generate_additional_training_data`. -/
def keyword_diseases : List String :=
  ["diabetes", "hypertension", "cancer", "malaria", "pneumonia"]

/-- Python `" ".join(l)`. -/
def joinSpace (l : List String) : String := String.intercalate " " l

/-- The symptom-combination texts generated for one disease:
`" ".join(symptoms[i:j+1])` for `i` in range and `j` in
`range(i+1, min(i+5, len(symptoms)))`. -/
def symptomCombos (symptoms : List String) : List String :=
  (List.range symptoms.length).flatMap (fun i =>
    (List.range' (i + 1) (min (i + 5) symptoms.length - (i + 1))).map (fun j =>
      joinSpace ((symptoms.drop i).take (j + 1 - i))))

/-- The training examples `generate_additional_training_data` appends for one
`diseases_database` entry: all symptom combinations at confidence 0.9, plus
every single symptom at confidence 0.95 when the disease name contains one of
the common-disease keywords. -/
def generatedItems (entry : String × DiseaseData) : List TrainingItem :=
  let name := entry.1
  let symptoms := (entry.2.symptoms).getD []
  (symptomCombos symptoms).map (fun combo =>
    { symptoms := combo, disease := name, confidence := mkRat 9 10 }) ++
  (if keyword_diseases.any (fun k => containsSub (lowerStr name) k) then
     symptoms.map (fun sym =>
       { symptoms := sym, disease := name, confidence := mkRat 95 100 })
   else [])

/-- `AdvancedMedicalAI.generate_additional_training_data`: append generated
examples for every database entry; no other field changes. -/
def generate_additional_training_data (ai : AIState) : AIState :=
  { ai with training_data :=
      ai.training_data ++ ai.diseases_database.flatMap generatedItems }

/-- The training error signalled when the data stays below the 50-example
threshold. -/
inductive TrainingError where
  | trainingDataInsufficient
deriving DecidableEq

/-- Abstraction of the scikit-learn fit-and-select pipeline of
`train_advanced_ai_model`: from the training data, the fitted vectorizer,
the best classifier and its held-out accuracy. -/
def Trainer : Type :=
  List TrainingItem → (String → List ℚ) × Classifier × ℚ

/-- `AdvancedMedicalAI.train_advanced_ai_model`: below 50 examples, generate
additional data; if still below 50, abort — the source logs a warning and
returns without touching the model, modelled as the explicit
`trainingDataInsufficient` marker.  Otherwise install the trainer's
vectorizer, classifier and accuracy and mark training completed. -/
def train_advanced_ai_model (trainer : Trainer) (ai : AIState) :
    AIState × Option TrainingError :=
  let ai1 := if ai.training_data.length < 50 then
      generate_additional_training_data ai
    else ai
  if ai1.training_data.length < 50 then
    (ai1, some TrainingError.trainingDataInsufficient)
  else
    let fit := trainer ai1.training_data
    ({ ai1 with vectorizer := some fit.1
                classifier := some fit.2.1
                accuracy := fit.2.2
                training_status := "completed" }, none)

end AdvancedMedicalAI

namespace EnhancedDiagnosisAI

/-- When every attempt made by the retry loop is a retriable failure, the
loop exhausts its fuel and returns `none`. -/
theorem fetch_with_retries_go_all_fail (attempt : Nat → AttemptResult) :
    ∀ fuel retries, (∀ i, i < retries + fuel → retriable (attempt i) = true) →
      fetch_with_retries_go attempt retries fuel = none := by
  intro fuel
  induction fuel with
  | zero => intro retries _; rfl
  | succ n ih =>
    intro retries h
    have hr : retriable (attempt retries) = true := h retries (by omega)
    cases hat : attempt retries with
    | connError =>
      simp only [fetch_with_retries_go, hat]
      exact ih (retries + 1) (fun i hi => h i (by omega))
    | status code payload =>
      rw [hat] at hr
      simp only [retriable, Bool.or_eq_true] at hr
      rcases hr with h429 | h500
      · simp only [fetch_with_retries_go, hat, h429, if_true]
        exact ih (retries + 1) (fun i hi => h i (by omega))
      · have h5 : 500 ≤ code := of_decide_eq_true h500
        by_cases h4 : (code == 429) = true
        · simp only [fetch_with_retries_go, hat, h4, if_true]
          exact ih (retries + 1) (fun i hi => h i (by omega))
        · simp only [fetch_with_retries_go, hat, h4, Bool.false_eq_true,
            if_false, if_pos h5]
          exact ih (retries + 1) (fun i hi => h i (by omega))

/-- C2 (amended): a fetch whose every attempt fails retriably returns `None`
(the explicit "unavailable" marker) — independently of any cache contents,
which `_fetch_with_retries` never consults — and `_get_cached` only ever
returns an entry that is still within its TTL, so an expired (stale) entry
is never served as a fallback. -/
theorem failed_fetch_returns_unavailable :
    (∀ (attempt : Nat → AttemptResult) (max_retries : Nat),
        (∀ i, i < max_retries → retriable (attempt i) = true) →
        fetch_with_retries attempt max_retries = none) ∧
    (∀ (cache : ExtCache) (now : Int) (key data : String),
        (get_cached cache now key).1 = some data →
        ∃ ts, cache key = some (data, ts) ∧ now - ts < cache_ttl) := by
  constructor
  · intro attempt mr h
    exact fetch_with_retries_go_all_fail attempt mr 0 (fun i hi => h i (by omega))
  · intro cache now key data h
    cases hc : cache key with
    | none => simp [get_cached, hc] at h
    | some p =>
      obtain ⟨d, ts⟩ := p
      by_cases hfresh : now - ts < cache_ttl
      · have hd : d = data := by simpa [get_cached, hc, hfresh] using h
        subst hd
        exact ⟨ts, rfl, hfresh⟩
      · simp [get_cached, hc, hfresh] at h

/-- C2 witness: concrete instantiation — three connection errors exhaust the
retries and yield `none`, and a fresh cache entry read back satisfies the
TTL bound. -/
theorem failed_fetch_returns_unavailable_witness :
    fetch_with_retries (fun _ => AttemptResult.connError) 3 = none ∧
    (∃ ts, (fun k => if k = "who_diabetes" then
          some (("payload", 0) : String × Int) else none) "who_diabetes"
        = some ("payload", ts) ∧ (100 : Int) - ts < cache_ttl) :=
  ⟨failed_fetch_returns_unavailable.1 (fun _ => AttemptResult.connError) 3
      (fun _ _ => rfl),
   failed_fetch_returns_unavailable.2
      (fun k => if k = "who_diabetes" then some (("payload", 0) : String × Int)
                else none) 100 "who_diabetes" "payload" (by decide)⟩

/-- C2 counterexample: a prior (expired) entry for the key exists, every
retry attempt fails, and yet the caller cannot receive the stale payload:
the retry loop returns `none` without consulting the cache, and
`_get_cached` deletes the expired entry and returns `none` as well. -/
theorem stale_entry_not_served_on_failed_fetch :
    ((fun k => if k = "who_diabetes" then some (("stale", 0) : String × Int)
               else none) "who_diabetes" = some ("stale", 0)) ∧
    fetch_with_retries (fun _ => AttemptResult.connError) 3 = none ∧
    (get_cached (fun k => if k = "who_diabetes" then
        some (("stale", 0) : String × Int) else none) 5000 "who_diabetes").1
      = none := by
  exact ⟨rfl, rfl, by decide⟩

/-- C9: reading an expired entry (age at least the TTL) through `_get_cached`
returns `None`, removes exactly that key from the cache, and leaves every
other key untouched. -/
theorem get_cached_expired_entry_deleted
    (cache : ExtCache) (now : Int) (key : String) (data : String) (ts : Int)
    (hentry : cache key = some (data, ts)) (hexp : cache_ttl ≤ now - ts) :
    (get_cached cache now key).1 = none ∧
    (get_cached cache now key).2 key = none ∧
    ∀ k, k ≠ key → (get_cached cache now key).2 k = cache k := by
  have hlt : ¬ (now - ts < cache_ttl) := not_lt.mpr hexp
  refine ⟨?_, ?_, ?_⟩
  · simp [get_cached, hentry, hlt]
  · simp [get_cached, hentry, hlt]
  · intro k hk
    simp [get_cached, hentry, hlt, hk]

/-- C9 witness: a concrete cache whose only entry is 5000 seconds old is
emptied by the read and yields `none`. -/
theorem get_cached_expired_entry_deleted_witness :
    (get_cached (fun k => if k = "who_cardiovascular" then
        some (("old", 0) : String × Int) else none) 5000 "who_cardiovascular").1
      = none ∧
    (get_cached (fun k => if k = "who_cardiovascular" then
        some (("old", 0) : String × Int) else none) 5000 "who_cardiovascular").2
      "who_cardiovascular" = none ∧
    ∀ k, k ≠ "who_cardiovascular" →
      (get_cached (fun k => if k = "who_cardiovascular" then
          some (("old", 0) : String × Int) else none) 5000 "who_cardiovascular").2 k
        = (fun k => if k = "who_cardiovascular" then
            some (("old", 0) : String × Int) else none) k :=
  get_cached_expired_entry_deleted
    (fun k => if k = "who_cardiovascular" then some (("old", 0) : String × Int)
              else none)
    5000 "who_cardiovascular" "old" 0 (by decide) (by decide)

end EnhancedDiagnosisAI

namespace AdvancedMedicalAI

/-- C5: on any input whose lower-casing contains a respiratory keyword but no
fever keyword, `analyze_symptoms` with a trained model returns the heuristic
fast-path result: the single candidate is the canonical "Common Cold" entry
with the fixed confidence 0.7, and the classifier output is bypassed. -/
theorem analyze_symptoms_respiratory_fast_path
    (vec : String → List ℚ) (clf : Classifier) (db : List (String × DiseaseData))
    (acc : ℚ) (td : List TrainingItem) (tst : String) (s : String)
    (hresp : respFlag (lowerStr s) = true) (hfev : feverFlag (lowerStr s) = false) :
    "Common Cold" ∈ canonical_diseases ∧
    analyze_symptoms ⟨some vec, some clf, db, acc, td, tst⟩ s =
      .report { predictions := [heurPrediction db "Common Cold"],
                input_symptoms := s, model_accuracy := acc,
                diseases_learned := db.length } ∧
    (heurPrediction db "Common Cold").disease = "Common Cold" ∧
    (heurPrediction db "Common Cold").confidence = mkRat 7 10 := by
  refine ⟨by decide, ?_, rfl, by simp [heurPrediction]⟩
  simp [analyze_symptoms, hresp, hfev]

/-- C5 witness: the spec's concrete scenario `"cough, runny nose, sneezing"`
triggers the fast path with the canonical Common Cold entry at confidence
0.7. -/
theorem analyze_symptoms_respiratory_fast_path_witness :
    "Common Cold" ∈ canonical_diseases ∧
    analyze_symptoms ⟨some (fun _ => []),
        some { classes := [], predictProba := fun _ => [] }, [], 0, [], "completed"⟩
        "cough, runny nose, sneezing" =
      .report { predictions := [heurPrediction [] "Common Cold"],
                input_symptoms := "cough, runny nose, sneezing",
                model_accuracy := 0, diseases_learned := 0 } ∧
    (heurPrediction [] "Common Cold").disease = "Common Cold" ∧
    (heurPrediction [] "Common Cold").confidence = mkRat 7 10 :=
  analyze_symptoms_respiratory_fast_path (fun _ => [])
    { classes := [], predictProba := fun _ => [] } [] 0 [] "completed"
    "cough, runny nose, sneezing" (by decide) (by decide)

/-- C7: with no classifier or no vectorizer loaded, `analyze_symptoms`
returns the explicit `{"error": "Model not trained"}` result — no fast path,
classifier prediction or keyword fallback runs. -/
theorem analyze_symptoms_model_not_ready (ai : AIState) (s : String)
    (h : ai.classifier = none ∨ ai.vectorizer = none) :
    analyze_symptoms ai s = .error "Model not trained" := by
  obtain ⟨v, c, db, acc, td, tst⟩ := ai
  rcases h with h | h
  · simp only at h
    subst h
    cases v <;> rfl
  · simp only at h
    subst h
    cases c <;> rfl

/-- C7 witness: a fresh state with neither model component returns the
explicit error on a concrete input. -/
theorem analyze_symptoms_model_not_ready_witness :
    analyze_symptoms ⟨none, none, [], 0, [], "not_started"⟩ "headache and fever"
      = .error "Model not trained" :=
  analyze_symptoms_model_not_ready ⟨none, none, [], 0, [], "not_started"⟩
    "headache and fever" (Or.inl rfl)

/-- C8: when the training data stays below the 50-example threshold even
after additional-data generation, `train_advanced_ai_model` reports
insufficient training data and leaves the stored vectorizer, classifier and
accuracy exactly as they were. -/
theorem train_insufficient_data_preserves_model (trainer : Trainer) (ai : AIState)
    (h : (if ai.training_data.length < 50 then generate_additional_training_data ai
          else ai).training_data.length < 50) :
    (train_advanced_ai_model trainer ai).2 =
      some TrainingError.trainingDataInsufficient ∧
    (train_advanced_ai_model trainer ai).1.vectorizer = ai.vectorizer ∧
    (train_advanced_ai_model trainer ai).1.classifier = ai.classifier ∧
    (train_advanced_ai_model trainer ai).1.accuracy = ai.accuracy := by
  have e : train_advanced_ai_model trainer ai =
      ((if ai.training_data.length < 50 then generate_additional_training_data ai
        else ai), some TrainingError.trainingDataInsufficient) := by
    unfold train_advanced_ai_model
    rw [if_pos h]
  rw [e]
  refine ⟨rfl, ?_, ?_, ?_⟩ <;>
    by_cases hc : ai.training_data.length < 50 <;>
    simp [hc, generate_additional_training_data]

/-- C8 witness: an empty state (no data, no database) stays below the
threshold after generation; the failed run reports the error and changes no
model field. -/
theorem train_insufficient_data_preserves_model_witness :
    (train_advanced_ai_model
        (fun _ => (fun _ => [], { classes := [], predictProba := fun _ => [] }, 0))
        ⟨none, none, [], 0, [], "not_started"⟩).2 =
      some TrainingError.trainingDataInsufficient ∧
    (train_advanced_ai_model
        (fun _ => (fun _ => [], { classes := [], predictProba := fun _ => [] }, 0))
        ⟨none, none, [], 0, [], "not_started"⟩).1.vectorizer =
      (⟨none, none, [], 0, [], "not_started"⟩ : AIState).vectorizer ∧
    (train_advanced_ai_model
        (fun _ => (fun _ => [], { classes := [], predictProba := fun _ => [] }, 0))
        ⟨none, none, [], 0, [], "not_started"⟩).1.classifier =
      (⟨none, none, [], 0, [], "not_started"⟩ : AIState).classifier ∧
    (train_advanced_ai_model
        (fun _ => (fun _ => [], { classes := [], predictProba := fun _ => [] }, 0))
        ⟨none, none, [], 0, [], "not_started"⟩).1.accuracy =
      (⟨none, none, [], 0, [], "not_started"⟩ : AIState).accuracy :=
  train_insufficient_data_preserves_model
    (fun _ => (fun _ => [], { classes := [], predictProba := fun _ => [] }, 0))
    ⟨none, none, [], 0, [], "not_started"⟩ (by decide)

end AdvancedMedicalAI

namespace AdvancedMedicalAI

/-- No canonical disease name lower-cases to the empty string. -/
theorem canonical_lower_ne_empty : ∀ c ∈ canonical_diseases, lowerStr c ≠ "" := by
  decide

/-- The lower-cased canonical names are pairwise distinct. -/
theorem canonical_lower_nodup : (canonical_diseases.map lowerStr).Nodup := by
  decide

/-- No alias key is contained in the empty string. -/
theorem alias_key_not_in_empty :
    ∀ kv ∈ display_aliases, containsSub "" kv.1 = false := by
  decide

/-- C6: `normalize_to_canonical` returns the canonical name whose lower-cased
form equals the lower-cased, stripped input whenever one exists; otherwise it
returns the canonical name of the first alias key, in insertion order,
contained in the lower-cased input; and it returns `none` when neither step
matches.  (Being a function of the input alone, every result is
deterministic.) -/
theorem normalize_to_canonical_spec :
    (∀ raw c, c ∈ canonical_diseases → trimStr (lowerStr raw) = lowerStr c →
        normalize_to_canonical raw = some c) ∧
    (∀ raw, (∀ c ∈ canonical_diseases, trimStr (lowerStr raw) ≠ lowerStr c) →
        normalize_to_canonical raw =
          (display_aliases.find? (fun kv =>
              containsSub (trimStr (lowerStr raw)) kv.1)).map (fun kv => kv.2)) ∧
    (∀ raw, (∀ c ∈ canonical_diseases, trimStr (lowerStr raw) ≠ lowerStr c) →
        (∀ kv ∈ display_aliases,
            containsSub (trimStr (lowerStr raw)) kv.1 = false) →
        normalize_to_canonical raw = none) := by
  have key2 : ∀ raw, (∀ c ∈ canonical_diseases, trimStr (lowerStr raw) ≠ lowerStr c) →
      normalize_to_canonical raw =
        (display_aliases.find? (fun kv =>
            containsSub (trimStr (lowerStr raw)) kv.1)).map (fun kv => kv.2) := by
    intro raw hnone
    by_cases hraw : raw = ""
    · subst hraw
      have hfa : display_aliases.find? (fun kv =>
          containsSub (trimStr (lowerStr "")) kv.1) = none :=
        List.find?_eq_none.mpr (fun kv hkv => by
          simp [show containsSub (trimStr (lowerStr "")) kv.1 = false from
            alias_key_not_in_empty kv hkv])
      rw [hfa]
      rfl
    · have hfc : canonical_diseases.find? (fun canon =>
          trimStr (lowerStr raw) == lowerStr canon) = none :=
        List.find?_eq_none.mpr (fun c hc => by
          simp only [beq_iff_eq]
          exact fun h => hnone c hc h)
      simp only [normalize_to_canonical, if_neg hraw, hfc]
  refine ⟨?_, key2, ?_⟩
  · intro raw c hc heq
    have hraw : raw ≠ "" := by
      intro hr
      subst hr
      exact canonical_lower_ne_empty c hc (by simpa using heq.symm)
    cases hfind : canonical_diseases.find? (fun canon =>
        trimStr (lowerStr raw) == lowerStr canon) with
    | none =>
      exact absurd (by simpa [beq_iff_eq] using List.find?_eq_none.mp hfind c hc) (by simp [heq])
    | some c' =>
      have h1 := List.find?_some hfind
      simp only [beq_iff_eq] at h1
      have hmem : c' ∈ canonical_diseases := List.mem_of_find?_eq_some hfind
      have heq' : lowerStr c = lowerStr c' := by
        rw [← heq, h1]
      have hcc : c = c' :=
        List.inj_on_of_nodup_map canonical_lower_nodup hc hmem heq'
      subst hcc
      simp only [normalize_to_canonical, if_neg hraw, hfind]
  · intro raw hcanon halias
    rw [key2 raw hcanon]
    rw [List.find?_eq_none.mpr (fun kv hkv => by simp [halias kv hkv])]
    rfl

/-- C6 witness: the padded, differently-cased input `" Influenza "` resolves
by the exact canonical match. -/
theorem normalize_to_canonical_spec_witness :
    normalize_to_canonical " Influenza " = some "Influenza" :=
  normalize_to_canonical_spec.1 " Influenza " "Influenza" (by decide) (by decide)

/-- Every alias value is itself a canonical disease name. -/
theorem alias_values_canonical :
    ∀ kv ∈ display_aliases, kv.2 ∈ canonical_diseases := by
  decide

/-- C10: canonicalization is idempotent — any canonical name
`normalize_to_canonical` returns maps to itself, and every member of the
canonical whitelist maps to itself. -/
theorem normalize_to_canonical_idempotent :
    (∀ s c, normalize_to_canonical s = some c →
        normalize_to_canonical c = some c) ∧
    (∀ c ∈ canonical_diseases, normalize_to_canonical c = some c) := by
  have hself : ∀ c ∈ canonical_diseases, normalize_to_canonical c = some c := by
    decide
  refine ⟨?_, hself⟩
  intro s c h
  apply hself
  by_cases hs : s = ""
  · subst hs
    simp [normalize_to_canonical] at h
  · simp only [normalize_to_canonical, if_neg hs] at h
    cases hfind : canonical_diseases.find? (fun canon =>
        trimStr (lowerStr s) == lowerStr canon) with
    | some c' =>
      rw [hfind] at h
      simp only [Option.some.injEq] at h
      subst h
      exact List.mem_of_find?_eq_some hfind
    | none =>
      rw [hfind] at h
      simp only [Option.map_eq_some'] at h
      obtain ⟨kv, hkv, hv⟩ := h
      subst hv
      exact alias_values_canonical kv (List.mem_of_find?_eq_some hkv)

/-- C10 witness: the alias `"flu"` resolves to `"Influenza"`, which maps to
itself. -/
theorem normalize_to_canonical_idempotent_witness :
    normalize_to_canonical "Influenza" = some "Influenza" :=
  normalize_to_canonical_idempotent.1 "flu" "Influenza" (by decide)

end AdvancedMedicalAI

namespace DrugInteractionAPI

/-- C3 counterexample: with the FDA lookup answering, `check_drug_interaction`
on warfarin/aspirin returns the FDA-built moderate interaction even though
the static known-interaction table holds a severe entry for that exact pair —
so the static table is not consulted first. -/
theorem static_table_not_consulted_first :
    (check_drug_interaction fdaTestOracle 0 emptyICache "warfarin" "aspirin").1 =
      some { drug1 := "warfarin", drug2 := "aspirin", severity := "moderate",
             description := "May increase bleeding risk", source := "FDA",
             recommendation := "Consult healthcare provider",
             mechanism := none, evidence_level := none } ∧
    (check_known_interaction "warfarin" "aspirin").map (fun i => i.severity) =
      some "severe" ∧
    (check_drug_interaction fdaTestOracle 0 emptyICache "warfarin" "aspirin").1.map
      (fun i => i.source) = some "FDA" := by
  refine ⟨by decide, by decide, by decide⟩

/-- C3 (amended): `check_drug_interaction` consults the TTL-bounded
interaction cache first — a fresh hit is returned as-is, with no cache
change and regardless of what the external sources would answer — while a
miss or an expired (stale) entry falls through to the FDA lookup, then the
OpenFDA lookup, and only when both external sources are silent the static
known-interaction table; when the table has no entry either, the result is
`none` — absence is not an error. -/
theorem check_drug_interaction_source_order :
    (∀ (ext : ExternalOracle) (now : Int) (cache : ICache)
        (drug1 drug2 : String) (i : Interaction) (ts : Int),
      cache (sortedKey (ext.normalize drug1) (ext.normalize drug2))
        = some (i, ts) →
      now - ts < cache_ttl →
      check_drug_interaction ext now cache drug1 drug2 = (some i, cache)) ∧
    (∀ (ext : ExternalOracle) (now : Int) (cache : ICache)
        (drug1 drug2 : String),
      (cache (sortedKey (ext.normalize drug1) (ext.normalize drug2)) = none ∨
       ∃ i ts, cache (sortedKey (ext.normalize drug1) (ext.normalize drug2))
           = some (i, ts) ∧ ¬ now - ts < cache_ttl) →
      (check_drug_interaction ext now cache drug1 drug2).1 =
        ((check_fda_interaction ext (ext.normalize drug1)
            (ext.normalize drug2)).orElse (fun _ =>
          ((check_openfda_interaction ext (ext.normalize drug1)
              (ext.normalize drug2)).orElse (fun _ =>
            check_known_interaction (ext.normalize drug1)
              (ext.normalize drug2)))))) := by
  constructor
  · intro ext now cache drug1 drug2 i ts hc hfresh
    simp [check_drug_interaction, hc, hfresh]
  · intro ext now cache drug1 drug2 h
    cases hf : check_fda_interaction ext (ext.normalize drug1)
        (ext.normalize drug2) with
    | some i =>
      rcases h with hmiss | ⟨i0, ts0, hc, hexp⟩
      · simp [check_drug_interaction, hmiss, hf, Option.orElse]
      · simp [check_drug_interaction, hc, hexp, hf, Option.orElse]
    | none =>
      cases ho : check_openfda_interaction ext (ext.normalize drug1)
          (ext.normalize drug2) with
      | some i =>
        rcases h with hmiss | ⟨i0, ts0, hc, hexp⟩
        · simp [check_drug_interaction, hmiss, hf, ho, Option.orElse]
        · simp [check_drug_interaction, hc, hexp, hf, ho, Option.orElse]
      | none =>
        cases hk : check_known_interaction (ext.normalize drug1)
            (ext.normalize drug2) with
        | some i =>
          rcases h with hmiss | ⟨i0, ts0, hc, hexp⟩
          · simp [check_drug_interaction, hmiss, hf, ho, hk, Option.orElse]
          · simp [check_drug_interaction, hc, hexp, hf, ho, hk, Option.orElse]
        | none =>
          rcases h with hmiss | ⟨i0, ts0, hc, hexp⟩
          · simp [check_drug_interaction, hmiss, hf, ho, hk, Option.orElse]
          · simp [check_drug_interaction, hc, hexp, hf, ho, hk, Option.orElse]

/-- C3 witness: a fresh cached warfarin/aspirin entry is returned untouched
even though the FDA oracle would answer; and offline, with an empty cache,
the unknown pair acetaminophen/vitamin d falls through the full external
chain and ends with no interaction. -/
theorem check_drug_interaction_source_order_witness :
    check_drug_interaction fdaTestOracle 100
        (fun k => if k = ("aspirin", "warfarin") then
          some (cachedWarfarinAspirin, (0 : Int)) else none)
        "warfarin" "aspirin" =
      (some cachedWarfarinAspirin,
        fun k => if k = ("aspirin", "warfarin") then
          some (cachedWarfarinAspirin, (0 : Int)) else none) ∧
    (check_drug_interaction offlineOracle 0 emptyICache
        "acetaminophen" "vitamin d").1 =
      ((check_fda_interaction offlineOracle
          (offlineOracle.normalize "acetaminophen")
          (offlineOracle.normalize "vitamin d")).orElse (fun _ =>
        ((check_openfda_interaction offlineOracle
            (offlineOracle.normalize "acetaminophen")
            (offlineOracle.normalize "vitamin d")).orElse (fun _ =>
          check_known_interaction (offlineOracle.normalize "acetaminophen")
            (offlineOracle.normalize "vitamin d")))))  :=
  ⟨check_drug_interaction_source_order.1 fdaTestOracle 100
      (fun k => if k = ("aspirin", "warfarin") then
        some (cachedWarfarinAspirin, (0 : Int)) else none)
      "warfarin" "aspirin" cachedWarfarinAspirin 0 (by decide) (by decide),
   check_drug_interaction_source_order.2 offlineOracle 0 emptyICache
      "acetaminophen" "vitamin d" (Or.inl rfl)⟩

end DrugInteractionAPI

namespace DrugInteractionAPI

/-- With the offline oracle, `check_drug_interaction` is the cache lookup
followed by the static-table fallback. -/
theorem check_offline_eq (now : Int) (c : ICache) (d1 d2 : String) :
    check_drug_interaction offlineOracle now c d1 d2 =
      match c (sortedKey d1 d2) with
      | some (i, ts) =>
        if now - ts < cache_ttl then (some i, c)
        else knownFallbackStep now c d1 d2
      | none => knownFallbackStep now c d1 d2 := by
  cases hc : c (sortedKey d1 d2) with
  | none =>
    cases hk : check_known_interaction d1 d2 with
    | none =>
      simp [check_drug_interaction, check_fda_interaction,
        check_openfda_interaction, offlineOracle, knownFallbackStep, hc, hk]
    | some i =>
      simp [check_drug_interaction, check_fda_interaction,
        check_openfda_interaction, offlineOracle, knownFallbackStep, hc, hk]
  | some p =>
    obtain ⟨i, ts⟩ := p
    by_cases hf : now - ts < cache_ttl
    · simp [check_drug_interaction, check_fda_interaction,
        check_openfda_interaction, offlineOracle, hc, hf]
    · cases hk : check_known_interaction d1 d2 with
      | none =>
        simp [check_drug_interaction, check_fda_interaction,
          check_openfda_interaction, offlineOracle, knownFallbackStep, hc, hk, hf]
      | some i' =>
        simp [check_drug_interaction, check_fda_interaction,
          check_openfda_interaction, offlineOracle, knownFallbackStep, hc, hk, hf]

/-- Reading the sorted key back out of `sortedKey`. -/
theorem sortedKey_wa (d1 d2 : String)
    (h : sortedKey d1 d2 = ("aspirin", "warfarin")) :
    (d1 = "aspirin" ∧ d2 = "warfarin") ∨ (d1 = "warfarin" ∧ d2 = "aspirin") := by
  unfold sortedKey at h
  by_cases hle : strLe d1 d2 = true
  · rw [if_pos hle] at h
    injection h with h1 h2
    exact Or.inl ⟨h1, h2⟩
  · rw [if_neg hle] at h
    injection h with h1 h2
    exact Or.inr ⟨h2, h1⟩

/-- The static table resolves a warfarin/aspirin pair (in either order) to a
severe interaction carrying that pair. -/
theorem known_wa (d1 d2 : String)
    (h : (d1 = "aspirin" ∧ d2 = "warfarin") ∨ (d1 = "warfarin" ∧ d2 = "aspirin")) :
    ∃ i, check_known_interaction d1 d2 = some i ∧ waInteraction i := by
  rcases h with ⟨h1, h2⟩ | ⟨h1, h2⟩ <;> subst h1 <;> subst h2
  · exact ⟨_, rfl, by decide⟩
  · exact ⟨_, rfl, by decide⟩

/-- The static-table fallback preserves the warfarin/aspirin cache
invariant. -/
theorem knownFallbackStep_preserves (now : Int) (c : ICache) (d1 d2 : String)
    (hc : waCacheOk c) : waCacheOk (knownFallbackStep now c d1 d2).2 := by
  unfold knownFallbackStep
  cases hk : check_known_interaction d1 d2 with
  | none => exact hc
  | some i =>
    intro j ts hj
    simp only [cacheStore] at hj
    by_cases hkey : (("aspirin", "warfarin") : String × String) = sortedKey d1 d2
    · rw [if_pos hkey] at hj
      obtain ⟨i', hi', hwa⟩ := known_wa d1 d2 (sortedKey_wa d1 d2 hkey.symm)
      rw [hk] at hi'
      injection hi' with hii
      injection hj with hjj
      have hij : i = j := congrArg Prod.fst hjj
      rw [← hij, hii]
      exact hwa
    · rw [if_neg hkey] at hj
      exact hc j ts hj

end DrugInteractionAPI

namespace DrugInteractionAPI

/-- On the warfarin/aspirin key the static-table fallback produces a severe
warfarin/aspirin interaction. -/
theorem knownFallbackStep_wa_hit (now : Int) (c : ICache) (d1 d2 : String)
    (h : sortedKey d1 d2 = ("aspirin", "warfarin")) :
    ∃ i, (knownFallbackStep now c d1 d2).1 = some i ∧ waInteraction i := by
  obtain ⟨i, hi, hwa⟩ := known_wa d1 d2 (sortedKey_wa d1 d2 h)
  exact ⟨i, by simp [knownFallbackStep, hi], hwa⟩

/-- Offline, one `check_drug_interaction` call preserves the
warfarin/aspirin cache invariant. -/
theorem check_offline_preserves (now : Int) (c : ICache) (d1 d2 : String)
    (hc : waCacheOk c) :
    waCacheOk (check_drug_interaction offlineOracle now c d1 d2).2 := by
  rw [check_offline_eq]
  cases hcc : c (sortedKey d1 d2) with
  | none => exact knownFallbackStep_preserves now c d1 d2 hc
  | some p =>
    obtain ⟨i0, ts0⟩ := p
    by_cases hf : now - ts0 < cache_ttl
    · simpa [hf] using hc
    · simpa [hf] using knownFallbackStep_preserves now c d1 d2 hc

/-- Offline, a `check_drug_interaction` call on a pair whose sorted key is
the warfarin/aspirin key returns a severe warfarin/aspirin interaction,
whether it comes from the cache (under the invariant) or the static
table. -/
theorem check_offline_wa_hit (now : Int) (c : ICache) (d1 d2 : String)
    (hc : waCacheOk c) (h : sortedKey d1 d2 = ("aspirin", "warfarin")) :
    ∃ i, (check_drug_interaction offlineOracle now c d1 d2).1 = some i ∧
      waInteraction i := by
  rw [check_offline_eq]
  rw [h]
  cases hcc : c ("aspirin", "warfarin") with
  | none => exact knownFallbackStep_wa_hit now c d1 d2 h
  | some p =>
    obtain ⟨i0, ts0⟩ := p
    by_cases hf : now - ts0 < cache_ttl
    · exact ⟨i0, by simp [hf], hc i0 ts0 hcc⟩
    · simpa [hf] using knownFallbackStep_wa_hit now c d1 d2 h

/-- Offline, the pairwise loop started under the cache invariant records a
severe warfarin/aspirin interaction whenever the pair list contains a pair
with the warfarin/aspirin sorted key. -/
theorem analyzeLoop_wa (now : Int) :
    ∀ (ps : List (String × String)) (c : ICache), waCacheOk c →
      ∀ d1 d2, (d1, d2) ∈ ps → sortedKey d1 d2 = ("aspirin", "warfarin") →
      ∃ i ∈ (analyzeLoop offlineOracle now ps c).interactions, waInteraction i := by
  intro ps
  induction ps with
  | nil =>
    intro c _ d1 d2 hmem _
    simp at hmem
  | cons hd tl ih =>
    obtain ⟨m1, m2⟩ := hd
    intro c hc d1 d2 hmem hkey
    rcases List.mem_cons.mp hmem with heq | hmem'
    · injection heq with e1 e2
      subst e1
      subst e2
      obtain ⟨i, hi, hwa⟩ := check_offline_wa_hit now c d1 d2 hc hkey
      simp only [analyzeLoop]
      rw [hi]
      exact ⟨i, List.mem_cons_self i _, hwa⟩
    · have hc1 : waCacheOk (check_drug_interaction offlineOracle now c m1 m2).2 :=
        check_offline_preserves now c m1 m2 hc
      obtain ⟨i, hi, hwa⟩ :=
        ih (check_drug_interaction offlineOracle now c m1 m2).2 hc1 d1 d2 hmem' hkey
      simp only [analyzeLoop]
      cases hstep : (check_drug_interaction offlineOracle now c m1 m2).1 with
      | none => exact ⟨i, hi, hwa⟩
      | some i0 => exact ⟨i, List.mem_cons_of_mem i0 hi, hwa⟩

/-- Any two distinct members of a medication list meet, in one order or the
other, in the pairwise enumeration. -/
theorem pairsOf_mem_of_mem (a b : String) (hab : a ≠ b) :
    ∀ l : List String, a ∈ l → b ∈ l →
      (a, b) ∈ pairsOf l ∨ (b, a) ∈ pairsOf l := by
  intro l
  induction l with
  | nil => intro ha; simp at ha
  | cons x rest ih =>
    intro ha hb
    rcases List.mem_cons.mp ha with hax | ha'
    · subst hax
      have hb' : b ∈ rest := by
        rcases List.mem_cons.mp hb with hbx | h
        · exact absurd hbx (Ne.symm hab)
        · exact h
      left
      simp only [pairsOf, List.mem_append]
      left
      exact List.mem_map.mpr ⟨b, hb', rfl⟩
    · rcases List.mem_cons.mp hb with hbx | hb'
      · subst hbx
        right
        simp only [pairsOf, List.mem_append]
        left
        exact List.mem_map.mpr ⟨a, ha', rfl⟩
      · rcases ih ha' hb' with h | h
        · left
          simp only [pairsOf, List.mem_append]
          right
          exact h
        · right
          simp only [pairsOf, List.mem_append]
          right
          exact h

/-- A severe interaction in the list forces the aggregate risk to "high". -/
theorem riskLevel_high_of_severe (ints : List Interaction)
    (h : ∃ i ∈ ints, i.severity = "severe") : riskLevel ints = "high" := by
  obtain ⟨i, hi, hs⟩ := h
  have hcond : (ints.any fun i => i.severity == "severe") = true :=
    List.any_eq_true.mpr ⟨i, hi, by rw [hs]; rfl⟩
  unfold riskLevel
  rw [if_pos hcond]

/-- No severe but some moderate interaction forces the aggregate risk to
"moderate". -/
theorem riskLevel_moderate_of (ints : List Interaction)
    (hns : ¬ ∃ i ∈ ints, i.severity = "severe")
    (hm : ∃ i ∈ ints, i.severity = "moderate") : riskLevel ints = "moderate" := by
  obtain ⟨i, hi, hs⟩ := hm
  have h1 : ¬ ints.any (fun i => i.severity == "severe") = true := by
    intro hh
    obtain ⟨j, hj, hb⟩ := List.any_eq_true.mp hh
    exact hns ⟨j, hj, beq_iff_eq.mp hb⟩
  have hcond : (ints.any fun i => i.severity == "moderate") = true :=
    List.any_eq_true.mpr ⟨i, hi, by rw [hs]; rfl⟩
  unfold riskLevel
  rw [if_neg h1, if_pos hcond]

/-- Neither severe nor moderate interactions force the aggregate risk to
"low". -/
theorem riskLevel_low_of (ints : List Interaction)
    (hns : ¬ ∃ i ∈ ints, i.severity = "severe")
    (hnm : ¬ ∃ i ∈ ints, i.severity = "moderate") : riskLevel ints = "low" := by
  have h1 : ¬ ints.any (fun i => i.severity == "severe") = true := by
    intro hh
    obtain ⟨j, hj, hb⟩ := List.any_eq_true.mp hh
    exact hns ⟨j, hj, beq_iff_eq.mp hb⟩
  have h2 : ¬ ints.any (fun i => i.severity == "moderate") = true := by
    intro hh
    obtain ⟨j, hj, hb⟩ := List.any_eq_true.mp hh
    exact hnm ⟨j, hj, beq_iff_eq.mp hb⟩
  unfold riskLevel
  rw [if_neg h1, if_neg h2]

end DrugInteractionAPI

namespace DrugInteractionAPI

/-- C1 counterexample: for the medication list `["warfarin", "aspirin"]`
(external sources silent, fresh cache) the report's `risk_level` is the
string "high", not "severe" — in either input order. -/
theorem warfarin_aspirin_risk_is_high_not_severe :
    (analyze_medication_list offlineOracle 0 emptyICache
        ["warfarin", "aspirin"]).1.risk_level = "high" ∧
    (analyze_medication_list offlineOracle 0 emptyICache
        ["warfarin", "aspirin"]).1.risk_level ≠ "severe" ∧
    (analyze_medication_list offlineOracle 0 emptyICache
        ["aspirin", "warfarin"]).1.risk_level = "high" := by
  refine ⟨by decide, by decide, by decide⟩

/-- C1 (amended): the report's overall risk level is "high" when some
detected interaction is severe, else "moderate" when some is moderate, else
"low"; and with external lookups unavailable and a fresh cache, any
medication list containing both "warfarin" and "aspirin" (in either order)
yields `risk_level = "high"` together with at least one severe interaction
entry for that pair. -/
theorem analyze_medication_list_risk_spec :
    (∀ (ext : ExternalOracle) (now : Int) (cache : ICache) (meds : List String),
      ((∃ i ∈ (analyze_medication_list ext now cache meds).1.interactions,
          i.severity = "severe") →
        (analyze_medication_list ext now cache meds).1.risk_level = "high") ∧
      ((¬ ∃ i ∈ (analyze_medication_list ext now cache meds).1.interactions,
          i.severity = "severe") →
        (∃ i ∈ (analyze_medication_list ext now cache meds).1.interactions,
          i.severity = "moderate") →
        (analyze_medication_list ext now cache meds).1.risk_level = "moderate") ∧
      ((¬ ∃ i ∈ (analyze_medication_list ext now cache meds).1.interactions,
          i.severity = "severe") →
        (¬ ∃ i ∈ (analyze_medication_list ext now cache meds).1.interactions,
          i.severity = "moderate") →
        (analyze_medication_list ext now cache meds).1.risk_level = "low")) ∧
    (∀ (now : Int) (meds : List String),
      "warfarin" ∈ meds → "aspirin" ∈ meds →
      (analyze_medication_list offlineOracle now emptyICache meds).1.risk_level
        = "high" ∧
      ∃ i ∈ (analyze_medication_list offlineOracle now emptyICache
          meds).1.interactions,
        i.severity = "severe" ∧
        ((i.drug1 = "warfarin" ∧ i.drug2 = "aspirin") ∨
         (i.drug1 = "aspirin" ∧ i.drug2 = "warfarin"))) := by
  constructor
  · intro ext now cache meds
    exact ⟨riskLevel_high_of_severe _,
      riskLevel_moderate_of _,
      riskLevel_low_of _⟩
  · intro now meds hw ha
    have hne : ("warfarin" : String) ≠ "aspirin" := by decide
    have hkey1 : sortedKey "warfarin" "aspirin" = ("aspirin", "warfarin") := by
      decide
    have hkey2 : sortedKey "aspirin" "warfarin" = ("aspirin", "warfarin") := by
      decide
    have hcok : waCacheOk emptyICache := fun i ts h => Option.noConfusion h
    have hfound : ∃ i ∈ (analyzeLoop offlineOracle now (pairsOf meds)
        emptyICache).interactions, waInteraction i := by
      rcases pairsOf_mem_of_mem "warfarin" "aspirin" hne meds hw ha with hmem | hmem
      · exact analyzeLoop_wa now (pairsOf meds) emptyICache hcok
          "warfarin" "aspirin" hmem hkey1
      · exact analyzeLoop_wa now (pairsOf meds) emptyICache hcok
          "aspirin" "warfarin" hmem hkey2
    obtain ⟨i, hi, hwa⟩ := hfound
    exact ⟨riskLevel_high_of_severe _ ⟨i, hi, hwa.1⟩, i, hi, hwa.1, hwa.2⟩

/-- C1 witness: the two-drug list of the spec scenario, offline with a fresh
cache, reports risk "high" with a severe warfarin/aspirin entry. -/
theorem analyze_medication_list_risk_spec_witness :
    (analyze_medication_list offlineOracle 0 emptyICache
        ["warfarin", "aspirin"]).1.risk_level = "high" ∧
    ∃ i ∈ (analyze_medication_list offlineOracle 0 emptyICache
        ["warfarin", "aspirin"]).1.interactions,
      i.severity = "severe" ∧
      ((i.drug1 = "warfarin" ∧ i.drug2 = "aspirin") ∨
       (i.drug1 = "aspirin" ∧ i.drug2 = "warfarin")) :=
  analyze_medication_list_risk_spec.2 0 ["warfarin", "aspirin"]
    (by decide) (by decide)

end DrugInteractionAPI

namespace AdvancedMedicalAI

/-- C4: off the respiratory fast path, `analyze_symptoms` with a trained
model returns a report whose candidates are the classifier candidates:
the index order walked is a permutation of all class indices sorted by
descending probability, at most three candidates are kept, every kept
candidate stems from a top-three index with probability above 0.1 whose raw
label canonicalizes (labels failing canonicalization are dropped), and when
every candidate is dropped the predictions are the first matching
`simple_map` fallback rule's entry — or the empty list when no rule matches
either. -/
theorem analyze_symptoms_classifier_path_spec
    (vec : String → List ℚ) (clf : Classifier) (db : List (String × DiseaseData))
    (acc : ℚ) (td : List TrainingItem) (tst : String) (s : String)
    (hresp : respFlag (lowerStr s) = false) :
    ∃ preds,
      analyze_symptoms ⟨some vec, some clf, db, acc, td, tst⟩ s =
        .report { predictions := preds, input_symptoms := s,
                  model_accuracy := acc, diseases_learned := db.length } ∧
      (argsortDesc (clf.predictProba (vec s))).Perm
        (List.range (clf.predictProba (vec s)).length) ∧
      List.Sorted (fun i j =>
        (clf.predictProba (vec s)).getD j 0 ≤ (clf.predictProba (vec s)).getD i 0)
        (argsortDesc (clf.predictProba (vec s))) ∧
      (classifierCandidates db clf.classes (clf.predictProba (vec s))).length ≤ 3 ∧
      (∀ p ∈ classifierCandidates db clf.classes (clf.predictProba (vec s)),
        ∃ idx ∈ (argsortDesc (clf.predictProba (vec s))).take 3,
          mkRat 1 10 < (clf.predictProba (vec s)).getD idx 0 ∧
          normalize_to_canonical (clf.classes.getD idx "") = some p.disease ∧
          p.confidence = (clf.predictProba (vec s)).getD idx 0) ∧
      (classifierCandidates db clf.classes (clf.predictProba (vec s)) ≠ [] →
        preds = classifierCandidates db clf.classes (clf.predictProba (vec s))) ∧
      (classifierCandidates db clf.classes (clf.predictProba (vec s)) = [] →
        preds = match keywordFallbackChoice (lowerStr s) with
                | some chosen => [fallbackPrediction db chosen]
                | none => []) := by
  refine ⟨if (classifierCandidates db clf.classes
        (clf.predictProba (vec s))).isEmpty then
      match keywordFallbackChoice (lowerStr s) with
      | some chosen => [fallbackPrediction db chosen]
      | none => []
    else classifierCandidates db clf.classes (clf.predictProba (vec s)),
    ?_, ?_, ?_, ?_, ?_, ?_, ?_⟩
  · simp [analyze_symptoms, hresp]
  · exact List.perm_insertionSort _ _
  · haveI ht : IsTotal Nat (fun i j =>
        (clf.predictProba (vec s)).getD j 0 ≤ (clf.predictProba (vec s)).getD i 0) :=
      ⟨fun a b => le_total _ _⟩
    haveI htr : IsTrans Nat (fun i j =>
        (clf.predictProba (vec s)).getD j 0 ≤ (clf.predictProba (vec s)).getD i 0) :=
      ⟨fun a b c hab hbc => le_trans hbc hab⟩
    exact List.sorted_insertionSort _ _
  · simp only [classifierCandidates]
    exact le_trans (List.length_filterMap_le _ _) (List.length_take_le _ _)
  · intro p hp
    simp only [classifierCandidates, List.mem_filterMap] at hp
    obtain ⟨idx, hidx, hf⟩ := hp
    by_cases hth : mkRat 1 10 < (clf.predictProba (vec s)).getD idx 0
    · rw [if_pos hth] at hf
      cases hn : normalize_to_canonical (clf.classes.getD idx "") with
      | none =>
        rw [hn] at hf
        exact absurd hf (by simp)
      | some canonical =>
        rw [hn] at hf
        injection hf with hf'
        refine ⟨idx, hidx, hth, ?_, ?_⟩
        · rw [hn, ← hf']
          rfl
        · rw [← hf']
          rfl
    · rw [if_neg hth] at hf
      exact absurd hf (by simp)
  · intro hne
    have hE : (classifierCandidates db clf.classes
        (clf.predictProba (vec s))).isEmpty = false := by
      cases hE : (classifierCandidates db clf.classes
          (clf.predictProba (vec s))).isEmpty
      · rfl
      · exact absurd (List.isEmpty_iff.mp hE) hne
    simp [hE]
  · intro heq
    have hE : (classifierCandidates db clf.classes
        (clf.predictProba (vec s))).isEmpty = true := by
      rw [heq]
      rfl
    simp [hE]

end AdvancedMedicalAI

namespace AdvancedMedicalAI

/-- C4 witness: a trained-but-degenerate model on the non-respiratory input
"zzz" — no candidate survives and no fallback rule fires, so the report
carries an empty prediction list. -/
theorem analyze_symptoms_classifier_path_spec_witness :
    ∃ preds,
      analyze_symptoms ⟨some (fun _ => []),
          some { classes := [], predictProba := fun _ => [] },
          [], 0, [], "completed"⟩ "zzz" =
        .report { predictions := preds, input_symptoms := "zzz",
                  model_accuracy := 0,
                  diseases_learned :=
                    List.length ([] : List (String × DiseaseData)) } ∧
      (argsortDesc (({ classes := [], predictProba := fun _ => [] } :
          Classifier).predictProba ((fun _ => []) "zzz"))).Perm
        (List.range (({ classes := [], predictProba := fun _ => [] } :
          Classifier).predictProba ((fun _ => []) "zzz")).length) ∧
      List.Sorted (fun i j =>
        (({ classes := [], predictProba := fun _ => [] } :
            Classifier).predictProba ((fun _ => []) "zzz")).getD j 0 ≤
        (({ classes := [], predictProba := fun _ => [] } :
            Classifier).predictProba ((fun _ => []) "zzz")).getD i 0)
        (argsortDesc (({ classes := [], predictProba := fun _ => [] } :
          Classifier).predictProba ((fun _ => []) "zzz"))) ∧
      (classifierCandidates [] ({ classes := [], predictProba := fun _ => [] } :
          Classifier).classes (({ classes := [], predictProba := fun _ => [] } :
          Classifier).predictProba ((fun _ => []) "zzz"))).length ≤ 3 ∧
      (∀ p ∈ classifierCandidates []
          ({ classes := [], predictProba := fun _ => [] } : Classifier).classes
          (({ classes := [], predictProba := fun _ => [] } :
            Classifier).predictProba ((fun _ => []) "zzz")),
        ∃ idx ∈ (argsortDesc (({ classes := [], predictProba := fun _ => [] } :
            Classifier).predictProba ((fun _ => []) "zzz"))).take 3,
          mkRat 1 10 < (({ classes := [], predictProba := fun _ => [] } :
              Classifier).predictProba ((fun _ => []) "zzz")).getD idx 0 ∧
          normalize_to_canonical
            (({ classes := [], predictProba := fun _ => [] } :
              Classifier).classes.getD idx "") = some p.disease ∧
          p.confidence = (({ classes := [], predictProba := fun _ => [] } :
            Classifier).predictProba ((fun _ => []) "zzz")).getD idx 0) ∧
      (classifierCandidates []
          ({ classes := [], predictProba := fun _ => [] } : Classifier).classes
          (({ classes := [], predictProba := fun _ => [] } :
            Classifier).predictProba ((fun _ => []) "zzz")) ≠ [] →
        preds = classifierCandidates []
          ({ classes := [], predictProba := fun _ => [] } : Classifier).classes
          (({ classes := [], predictProba := fun _ => [] } :
            Classifier).predictProba ((fun _ => []) "zzz"))) ∧
      (classifierCandidates []
          ({ classes := [], predictProba := fun _ => [] } : Classifier).classes
          (({ classes := [], predictProba := fun _ => [] } :
            Classifier).predictProba ((fun _ => []) "zzz")) = [] →
        preds = match keywordFallbackChoice (lowerStr "zzz") with
                | some chosen => [fallbackPrediction [] chosen]
                | none => []) :=
  analyze_symptoms_classifier_path_spec (fun _ => [])
    { classes := [], predictProba := fun _ => [] } [] 0 [] "completed" "zzz"
    (by decide)

end AdvancedMedicalAI
